import Mathlib

/-!
Formal model of the azure-iot-device file-upload endpoint client
(`FileUploadApi` in `file_upload_api.ts`) and of the service SDK
connection-string module (`service/src/connection_string.ts`), together
with theorems about request construction, authentication dispatch,
argument validation and callback behaviour.

The HTTP transport is an external collaborator: each operation is modelled
as a pure function that validates its arguments and produces the
`buildRequest` arguments together with the written body (the source calls
`req.write(body); req.end()`), and the transport-completion closure of each
operation is modelled as a separate pure function from the completion
arguments to the sequence of caller-callback invocations plus an optional
thrown exception.
-/

namespace AzureIot

/-- JavaScript string length (`s.length`), which counts UTF-16 code units:
characters above U+FFFF count twice. -/
def jsLength (s : String) : Nat :=
  (s.data.map (fun c => if c.toNat ≥ 0x10000 then 2 else 1)).sum

/-- Uppercase hexadecimal digit for a value below 16. -/
def hexDigitUpper (n : Nat) : Char :=
  if n < 10 then Char.ofNat (48 + n) else Char.ofNat (55 + n)

/-- Percent-encoding of a single byte, as produced by `encodeURIComponent`:
a percent sign followed by two uppercase hexadecimal digits. -/
def percentByte (b : Nat) : String :=
  String.mk ['%', hexDigitUpper (b / 16), hexDigitUpper (b % 16)]

/-- UTF-8 encoding of a Unicode code point, as a list of byte values. -/
def utf8Bytes (n : Nat) : List Nat :=
  if n < 0x80 then [n]
  else if n < 0x800 then [0xC0 ||| (n >>> 6), 0x80 ||| (n &&& 0x3F)]
  else if n < 0x10000 then
    [0xE0 ||| (n >>> 12), 0x80 ||| ((n >>> 6) &&& 0x3F), 0x80 ||| (n &&& 0x3F)]
  else
    [0xF0 ||| (n >>> 18), 0x80 ||| ((n >>> 12) &&& 0x3F),
     0x80 ||| ((n >>> 6) &&& 0x3F), 0x80 ||| (n &&& 0x3F)]

/-- Characters left unescaped by the JavaScript builtin `encodeURIComponent`:
ASCII letters and digits and `- _ . ! ~ * ' ( )`. -/
def uriUnescaped (c : Char) : Bool :=
  c.isAlphanum || c ∈ ['-', '_', '.', '!', '~', '*', '\'', '(', ')']

/-- Encoding of one character by `encodeURIComponent`: unescaped characters
pass through, every other character becomes the percent-encoding of its
UTF-8 bytes. -/
def encodeURIComponentChar (c : Char) : String :=
  if uriUnescaped c then String.singleton c
  else String.join ((utf8Bytes c.toNat).map percentByte)

/-- Model of the JavaScript builtin `encodeURIComponent`, applied by
`notifyUploadComplete` to the correlation id. -/
def encodeURIComponent (s : String) : String :=
  String.join (s.data.map encodeURIComponentChar)

/-- JSON values, the data interchanged on the wire (request and response
bodies are produced by `JSON.stringify` and consumed by `JSON.parse`).
Numbers are modelled as integers, which covers every value this client
ever serializes or inspects. -/
inductive Json where
  | null : Json
  | bool (b : Bool) : Json
  | num (n : Int) : Json
  | str (s : String) : Json
  | arr (elems : List Json) : Json
  | obj (fields : List (String × Json)) : Json
deriving Repr, BEq

/-- Escaping of one character inside a JSON string literal, following
`JSON.stringify`. -/
def jsonEscapeChar (c : Char) : String :=
  if c = '"' then "\\\""
  else if c = '\\' then "\\\\"
  else if c = '\n' then "\\n"
  else if c = '\r' then "\\r"
  else if c = '\t' then "\\t"
  else if c = '\x08' then "\\b"
  else if c = '\x0c' then "\\f"
  else if c.toNat < 0x20 then
    "\\u00" ++ String.mk [hexDigitUpper (c.toNat / 16), hexDigitUpper (c.toNat % 16)]
  else String.singleton c

/-- Escaping of a whole string for inclusion in a JSON string literal. -/
def jsonEscape (s : String) : String :=
  String.join (s.data.map jsonEscapeChar)

mutual

/-- Model of the JavaScript builtin `JSON.stringify` on `Json` values. -/
def Json.stringify : Json → String
  | .null => "null"
  | .bool true => "true"
  | .bool false => "false"
  | .num n => toString n
  | .str s => "\"" ++ jsonEscape s ++ "\""
  | .arr elems => "[" ++ String.intercalate "," (Json.stringifyList elems) ++ "]"
  | .obj fields => "\x7b" ++ String.intercalate "," (Json.stringifyFields fields) ++ "\x7d"

/-- Serialization of a list of JSON array elements. -/
def Json.stringifyList : List Json → List String
  | [] => []
  | j :: js => Json.stringify j :: Json.stringifyList js

/-- Serialization of a list of JSON object members. -/
def Json.stringifyFields : List (String × Json) → List String
  | [] => []
  | (k, v) :: fs => ("\"" ++ jsonEscape k ++ "\":" ++ Json.stringify v) :: Json.stringifyFields fs

end

/-- Value of a hexadecimal digit character, if it is one. -/
def hexVal (c : Char) : Option Nat :=
  if c.isDigit then some (c.toNat - 48)
  else if 'a' ≤ c ∧ c ≤ 'f' then some (c.toNat - 87)
  else if 'A' ≤ c ∧ c ≤ 'F' then some (c.toNat - 55)
  else none

/-- Drop leading JSON whitespace. -/
def skipWs : List Char → List Char
  | c :: cs => if c = ' ' ∨ c = '\n' ∨ c = '\t' ∨ c = '\r' then skipWs cs else c :: cs
  | [] => []

/-- Split a character list into its leading run of decimal digits and the rest. -/
def takeDigits : List Char → List Char × List Char
  | [] => ([], [])
  | c :: cs =>
    if c.isDigit then
      let (ds, r) := takeDigits cs
      (c :: ds, r)
    else ([], c :: cs)

/-- Decimal value of a digit run. -/
def digitsToNat (ds : List Char) : Nat :=
  ds.foldl (fun acc c => acc * 10 + (c.toNat - 48)) 0

/-- Body of a JSON string literal (the opening quote already consumed):
returns the decoded string and the input past the closing quote. The fuel
argument bounds the recursion; callers supply at least the input length. -/
def parseJsonString : Nat → List Char → Option (String × List Char)
  | 0, _ => none
  | _, [] => none
  | fuel + 1, c :: cs =>
    if c = '"' then some ("", cs)
    else if c = '\\' then
      match cs with
      | [] => none
      | e :: cs2 =>
        let decoded : Option (Char × List Char) :=
          if e = '"' then some ('"', cs2)
          else if e = '\\' then some ('\\', cs2)
          else if e = '/' then some ('/', cs2)
          else if e = 'n' then some ('\n', cs2)
          else if e = 't' then some ('\t', cs2)
          else if e = 'r' then some ('\r', cs2)
          else if e = 'b' then some ('\x08', cs2)
          else if e = 'f' then some ('\x0c', cs2)
          else if e = 'u' then
            match cs2 with
            | a :: b :: c2 :: d :: cs3 =>
              match hexVal a, hexVal b, hexVal c2, hexVal d with
              | some ha, some hb, some hc, some hd =>
                some (Char.ofNat (((ha * 16 + hb) * 16 + hc) * 16 + hd), cs3)
              | _, _, _, _ => none
            | _ => none
          else none
        match decoded with
        | none => none
        | some (ch, rest) =>
          match parseJsonString fuel rest with
          | some (s, r) => some (String.singleton ch ++ s, r)
          | none => none
    else
      match parseJsonString fuel cs with
      | some (s, r) => some (String.singleton c ++ s, r)
      | none => none

mutual

/-- One JSON value at the head of the input (whitespace allowed before it),
with the remaining input. Fueled recursive-descent model of `JSON.parse`. -/
def parseJsonValue : Nat → List Char → Option (Json × List Char)
  | 0, _ => none
  | fuel + 1, input =>
    match skipWs input with
    | [] => none
    | c :: cs =>
      if c = 'n' then
        match cs with
        | 'u' :: 'l' :: 'l' :: rest => some (.null, rest)
        | _ => none
      else if c = 't' then
        match cs with
        | 'r' :: 'u' :: 'e' :: rest => some (.bool true, rest)
        | _ => none
      else if c = 'f' then
        match cs with
        | 'a' :: 'l' :: 's' :: 'e' :: rest => some (.bool false, rest)
        | _ => none
      else if c = '"' then
        match parseJsonString (cs.length + 1) cs with
        | some (s, rest) => some (.str s, rest)
        | none => none
      else if c = '-' then
        match takeDigits cs with
        | ([], _) => none
        | (ds, rest) => some (.num (-(digitsToNat ds : Int)), rest)
      else if c.isDigit then
        match takeDigits (c :: cs) with
        | ([], _) => none
        | (ds, rest) => some (.num (digitsToNat ds : Int), rest)
      else if c = '[' then
        match skipWs cs with
        | ']' :: rest => some (.arr [], rest)
        | cs2 =>
          match parseJsonElems fuel cs2 with
          | some (elems, rest) => some (.arr elems, rest)
          | none => none
      else if c = '\x7b' then
        match skipWs cs with
        | '\x7d' :: rest => some (.obj [], rest)
        | cs2 =>
          match parseJsonMembers fuel cs2 with
          | some (fields, rest) => some (.obj fields, rest)
          | none => none
      else none

/-- One or more comma-separated JSON array elements followed by `]`. -/
def parseJsonElems : Nat → List Char → Option (List Json × List Char)
  | 0, _ => none
  | fuel + 1, input =>
    match parseJsonValue fuel input with
    | none => none
    | some (j, rest) =>
      match skipWs rest with
      | ',' :: rest2 =>
        match parseJsonElems fuel rest2 with
        | some (js, rest3) => some (j :: js, rest3)
        | none => none
      | ']' :: rest2 => some ([j], rest2)
      | _ => none

/-- One or more comma-separated JSON object members followed by the closing
brace. -/
def parseJsonMembers : Nat → List Char → Option (List (String × Json) × List Char)
  | 0, _ => none
  | fuel + 1, input =>
    match skipWs input with
    | '"' :: cs =>
      match parseJsonString (cs.length + 1) cs with
      | none => none
      | some (k, rest) =>
        match skipWs rest with
        | ':' :: rest2 =>
          match parseJsonValue fuel rest2 with
          | none => none
          | some (v, rest3) =>
            match skipWs rest3 with
            | ',' :: rest4 =>
              match parseJsonMembers fuel rest4 with
              | some (fields, rest5) => some ((k, v) :: fields, rest5)
              | none => none
            | '\x7d' :: rest4 => some ([(k, v)], rest4)
            | _ => none
        | _ => none
    | _ => none

end

/-- Model of the JavaScript builtin `JSON.parse`: `some` of the decoded
value when the whole input is a valid JSON document, `none` when parsing
fails (where `JSON.parse` would throw a `SyntaxError`). -/
def jsonParse (s : String) : Option Json :=
  match parseJsonValue (2 * s.length + 8) s.data with
  | some (j, rest) =>
    match skipWs rest with
    | [] => some j
    | _ => none
  | none => none

/-- Split a character list at every occurrence of the separator. -/
def splitOnCharList (sep : Char) : List Char → List (List Char)
  | [] => [[]]
  | c :: cs =>
    if c = sep then [] :: splitOnCharList sep cs
    else
      match splitOnCharList sep cs with
      | [] => [[c]]
      | g :: gs => (c :: g) :: gs

/-- Model of the JavaScript `String.prototype.split` with a
single-character separator (every call site of this client splits on a
single character). -/
def jsSplitChar (sep : Char) (s : String) : List String :=
  (splitOnCharList sep s.data).map String.mk

/-- Split a character list at the first occurrence of the separator
character, when there is one. -/
def breakAtChar (sep : Char) : List Char → Option (List Char × List Char)
  | [] => none
  | c :: cs =>
    if c = sep then some ([], cs)
    else
      match breakAtChar sep cs with
      | some (before, after) => some (c :: before, after)
      | none => none

/-- An X509 certificate credential (from azure-iot-common). The endpoint
code never inspects it: it is handed to the transport as the certificate
options for mutual-TLS. -/
structure X509 where
  cert : String
  key : String
deriving Repr, DecidableEq

/-- The polymorphic `auth` parameter: either a shared-access-signature
string (`typeof auth === 'string'`) or an X509 certificate object. -/
inductive Auth where
  | sas (s : String) : Auth
  | x509 (c : X509) : Auth
deriving Repr, DecidableEq

/-- JavaScript falsiness of the `auth` argument: of the union's values only
the empty string is falsy (objects are always truthy). -/
def authFalsy : Auth → Bool
  | .sas s => s.isEmpty
  | .x509 _ => false

/-- JavaScript falsiness of a required string argument. -/
def strFalsy (s : String) : Bool := s.isEmpty

/-- The `ReferenceError` thrown by the argument-validation guards. -/
structure ReferenceError where
  message : String
deriving Repr, DecidableEq

/-- A header value as placed into the headers object: a string, or a
number in the case of `Content-Length` (`body.length`). -/
inductive HVal where
  | str (s : String) : HVal
  | num (n : Nat) : HVal
deriving Repr, DecidableEq

/-- The arguments the operation hands to the transport collaborator:
`this.http.buildRequest(method, path, headers, host, x509Opts, callback)`
followed by `req.write(body); req.end()`. -/
structure RequestSpec where
  method : String
  path : String
  headers : List (String × HVal)
  host : String
  x509Opts : Option X509
  body : String
deriving Repr, DecidableEq

/-- Modelled from the spec: the transport argument of the constructor.
`new DefaultHttpTransport()` (azure-iot-http-base, not under src/) is the
default; an injected transport is used when supplied. -/
inductive TransportChoice (T : Type) where
  | defaultTransport : TransportChoice T
  | injected (t : T) : TransportChoice T
deriving Repr, DecidableEq

/-- Modelled from the spec: `endpoint.devicePath` of azure-iot-common is
not under src/; the spec gives request paths of the form
`/devices/<deviceId>/...`. -/
def devicePath (deviceId : String) : String := "/devices/" ++ deviceId

/-- Modelled from the spec: the api-version value appended by
`endpoint.versionQueryString` of azure-iot-common (not under src/); the
spec leaves the exact version string abstract, so any fixed value serves. -/
def apiVersion : String := "2016-11-14"

/-- Modelled from the spec: `endpoint.versionQueryString` of
azure-iot-common (not under src/) yields `?api-version=<api-version>`. -/
def versionQueryString : String := "?api-version=" ++ apiVersion

/-- Modelled from the spec: `packageJson.name` (package.json is not under
src/); the spec only requires a User-Agent identifying the SDK name. -/
def packageName : String := "azure-iot-device"

/-- Modelled from the spec: `packageJson.version` (package.json is not
under src/); the spec only requires a User-Agent identifying the SDK
version. -/
def packageVersion : String := "1.0.0"

/-- The blob upload result forwarded by `notifyUploadComplete`: the
endpoint code treats it opaquely and only serializes it with
`JSON.stringify`, so it is modelled as an arbitrary JSON value. -/
def BlobUploadResult : Type := Json

/-- State of a `FileUploadApi` instance after construction: device id, hub
hostname and the chosen transport, all immutable afterwards. -/
structure FileUploadApi (T : Type) where
  deviceId : String
  hostname : String
  http : TransportChoice T
deriving Repr, DecidableEq

/-- The `FileUploadApi` constructor: throws a `ReferenceError` when
`deviceId` or `hostname` is falsy, otherwise stores both and picks the
injected transport when one is supplied, else the default one. -/
def FileUploadApi.construct (T : Type) (deviceId hostname : String)
    (httpTransport : Option T) : Except ReferenceError (FileUploadApi T) :=
  if strFalsy deviceId then .error ⟨"deviceId cannot be " ++ deviceId⟩
  else if strFalsy hostname then .error ⟨"hostname cannot be " ++ hostname⟩
  else
    .ok
      { deviceId := deviceId
        hostname := hostname
        http :=
          match httpTransport with
          | some t => .injected t
          | none => .defaultTransport }

/-- Request construction of `getBlobSharedAccessSignature`: validates
`blobName` and `auth`, builds the POST path, body and headers, sets
`Authorization` when auth is a string and passes the certificate as
`x509Opts` otherwise, and hands everything to `buildRequest` (modelled by
returning the `RequestSpec`). -/
def FileUploadApi.getBlobSharedAccessSignature {T : Type} (api : FileUploadApi T)
    (blobName : String) (auth : Auth) : Except ReferenceError RequestSpec :=
  if strFalsy blobName then .error ⟨"blobName cannot be " ++ blobName⟩
  else if authFalsy auth then .error ⟨"auth cannot be falsy"⟩
  else
    let path := devicePath api.deviceId ++ "/files" ++ versionQueryString
    let body := Json.stringify (.obj [("blobName", .str blobName)])
    let headers : List (String × HVal) :=
      [("Host", .str api.hostname),
       ("Accept", .str "application/json"),
       ("Content-Type", .str "application/json"),
       ("Content-Length", .num (jsLength body)),
       ("User-Agent", .str (packageName ++ "/" ++ packageVersion))]
    match auth with
    | .sas s =>
      .ok ⟨"POST", path, headers ++ [("Authorization", .str s)], api.hostname, none, body⟩
    | .x509 c =>
      .ok ⟨"POST", path, headers, api.hostname, some c, body⟩

/-- Request construction of `notifyUploadComplete`: validates
`correlationId`, `auth` and `uploadResult` (an absent object argument is
`none`), builds the POST path with the percent-encoded correlation id, the
JSON body and the headers including `iothub-name`, with the same auth
dispatch as `getBlobSharedAccessSignature`. -/
def FileUploadApi.notifyUploadComplete {T : Type} (api : FileUploadApi T)
    (correlationId : String) (auth : Auth) (uploadResult : Option BlobUploadResult) :
    Except ReferenceError RequestSpec :=
  if strFalsy correlationId then .error ⟨"correlationId cannot be " ++ correlationId⟩
  else if authFalsy auth then .error ⟨"auth cannot be falsy"⟩
  else
    match uploadResult with
    | none => .error ⟨"uploadResult cannot be undefined"⟩
    | some ur =>
      let path := devicePath api.deviceId ++ "/files/notifications/" ++
        encodeURIComponent correlationId ++ versionQueryString
      let body := Json.stringify ur
      let headers : List (String × HVal) :=
        [("Host", .str api.hostname),
         ("User-Agent", .str (packageName ++ "/" ++ packageVersion)),
         ("Content-Type", .str "application/json; charset=utf-8"),
         ("Content-Length", .num (jsLength body)),
         ("iothub-name", .str ((jsSplitChar '.' api.hostname).headD ""))]
      match auth with
      | .sas s =>
        .ok ⟨"POST", path, headers ++ [("Authorization", .str s)], api.hostname, none, body⟩
      | .x509 c =>
        .ok ⟨"POST", path, headers, api.hostname, some c, body⟩

/-- The error object the transport passes to its completion callback. -/
structure TransportError where
  message : String
deriving Repr, DecidableEq

/-- The response object the transport passes to its completion callback. -/
structure HttpResponse where
  statusCode : Nat
  statusMessage : String
deriving Repr, DecidableEq

/-- A transport error after `getBlobSharedAccessSignature` has attached the
response body and response object to it for diagnostics
(`err.responseBody = body; err.response = response`). -/
structure EnrichedError where
  base : TransportError
  responseBody : String
  response : HttpResponse
deriving Repr, DecidableEq

/-- One invocation of the `done` callback of
`getBlobSharedAccessSignature`: `done(err)` or `done(null, result)`. -/
inductive GetBlobCall where
  | failed (e : EnrichedError) : GetBlobCall
  | succeeded (result : Json) : GetBlobCall
deriving Repr, BEq

/-- An exception escaping an asynchronous completion callback. -/
inductive JsError where
  | parseFailure (badBody : String) : JsError
  | calledUndefined (what : String) : JsError
deriving Repr, DecidableEq

/-- The transport-completion closure inside `getBlobSharedAccessSignature`,
modelled as the sequence of `done` invocations it performs plus an
optional exception it throws: on error it enriches and forwards the error;
on success it runs `JSON.parse(body)` — when that fails the `SyntaxError`
propagates out of the callback and `done` is never invoked. -/
def getBlobOnResponse (err : Option TransportError) (body : String)
    (response : HttpResponse) : List GetBlobCall × Option JsError :=
  match err with
  | some e => ([.failed ⟨e, body, response⟩], none)
  | none =>
    match jsonParse body with
    | some result => ([.succeeded result], none)
    | none => ([], some (.parseFailure body))

/-- One invocation of the `done` callback of `notifyUploadComplete`:
`done(err)` or `done()`. -/
inductive NotifyCall where
  | failed (e : TransportError) : NotifyCall
  | succeeded : NotifyCall
deriving Repr, DecidableEq

/-- The transport-completion closure inside `notifyUploadComplete`. The
`done` callback is declared optional but invoked unconditionally: when the
caller omitted it (`donePresent = false`), calling `undefined` throws a
`TypeError` on both the error and the success path and no callback runs. -/
def notifyOnResponse (donePresent : Bool) (err : Option TransportError) :
    List NotifyCall × Option JsError :=
  if donePresent then
    match err with
    | some e => ([.failed e], none)
    | none => ([.succeeded], none)
  else ([], some (.calledUndefined "done"))

/-- The `ArgumentError` of azure-iot-common, thrown on a missing required
connection-string field. -/
structure ArgumentError where
  message : String
deriving Repr, DecidableEq

/-- Modelled from the spec: the dictionary-building step of
`azure-iot-common.ConnectionString.parse` (not under src/): split the
source on the separator and decompose each `Key=Value` piece at its first
equals sign, ignoring pieces without one. -/
def createDictionary (source : String) (separator : Char) : List (String × String) :=
  (jsSplitChar separator source).filterMap fun piece =>
    match breakAtChar '=' piece.data with
    | some (k, v) => some (String.mk k, String.mk v)
    | none => none

/-- Modelled from the spec: `azure-iot-common.ConnectionString.parse` (not
under src/): builds the dictionary and throws an `ArgumentError` naming the
first required field that is absent, otherwise returns the mapping. -/
def ConnectionString.parse (source : String) (required : List String) :
    Except ArgumentError (List (String × String)) :=
  match required.find? (fun k => ((createDictionary source ';').lookup k).isNone) with
  | some missing => .error ⟨"The connection string is missing the property: " ++ missing⟩
  | none => .ok (createDictionary source ';')

/-- The three fields `service/src/connection_string.ts` requires. -/
def requiredServiceFields : List String :=
  ["HostName", "SharedAccessKeyName", "SharedAccessKey"]

/-- The `parse` export of `service/src/connection_string.ts`: delegates to
`ConnectionString.parse` with the three required service fields. -/
def ServiceConnectionString.parse (source : String) :
    Except ArgumentError (List (String × String)) :=
  ConnectionString.parse source requiredServiceFields

/-! ## Helper lemmas -/

/-- A non-empty string is not falsy. -/
theorem strFalsy_eq_false {s : String} (h : s ≠ "") : strFalsy s = false := by
  unfold strFalsy
  cases he : s.isEmpty with
  | false => rfl
  | true => exact absurd ((String.isEmpty_iff s).mp he) h

/-- The empty string is falsy. -/
theorem strFalsy_empty : strFalsy "" = true := rfl

/-- A non-empty signature string is not falsy as an `auth` argument. -/
theorem authFalsy_sas {s : String} (h : s ≠ "") : authFalsy (.sas s) = false :=
  strFalsy_eq_false h

/-- A certificate object is never falsy as an `auth` argument. -/
theorem authFalsy_x509 (c : X509) : authFalsy (.x509 c) = false := rfl

/-- The request `getBlobSharedAccessSignature` builds for a signature-string
auth argument, in closed form. -/
theorem getBlob_sas_eq (T : Type) (api : FileUploadApi T) (blobName s : String)
    (hb : blobName ≠ "") (hs : s ≠ "") :
    api.getBlobSharedAccessSignature blobName (.sas s) =
      .ok ⟨"POST", devicePath api.deviceId ++ "/files" ++ versionQueryString,
        [("Host", .str api.hostname),
         ("Accept", .str "application/json"),
         ("Content-Type", .str "application/json"),
         ("Content-Length", .num (jsLength (Json.stringify (.obj [("blobName", .str blobName)])))),
         ("User-Agent", .str (packageName ++ "/" ++ packageVersion)),
         ("Authorization", .str s)],
        api.hostname, none, Json.stringify (.obj [("blobName", .str blobName)])⟩ := by
  simp [FileUploadApi.getBlobSharedAccessSignature, strFalsy_eq_false hb, authFalsy_sas hs]

/-- The request `getBlobSharedAccessSignature` builds for a certificate
auth argument, in closed form. -/
theorem getBlob_x509_eq (T : Type) (api : FileUploadApi T) (blobName : String) (c : X509)
    (hb : blobName ≠ "") :
    api.getBlobSharedAccessSignature blobName (.x509 c) =
      .ok ⟨"POST", devicePath api.deviceId ++ "/files" ++ versionQueryString,
        [("Host", .str api.hostname),
         ("Accept", .str "application/json"),
         ("Content-Type", .str "application/json"),
         ("Content-Length", .num (jsLength (Json.stringify (.obj [("blobName", .str blobName)])))),
         ("User-Agent", .str (packageName ++ "/" ++ packageVersion))],
        api.hostname, some c, Json.stringify (.obj [("blobName", .str blobName)])⟩ := by
  simp [FileUploadApi.getBlobSharedAccessSignature, strFalsy_eq_false hb, authFalsy_x509]

/-- The request `notifyUploadComplete` builds for a signature-string auth
argument, in closed form. -/
theorem notify_sas_eq (T : Type) (api : FileUploadApi T) (cid s : String) (ur : BlobUploadResult)
    (hc : cid ≠ "") (hs : s ≠ "") :
    api.notifyUploadComplete cid (.sas s) (some ur) =
      .ok ⟨"POST",
        devicePath api.deviceId ++ "/files/notifications/" ++ encodeURIComponent cid ++ versionQueryString,
        [("Host", .str api.hostname),
         ("User-Agent", .str (packageName ++ "/" ++ packageVersion)),
         ("Content-Type", .str "application/json; charset=utf-8"),
         ("Content-Length", .num (jsLength (Json.stringify ur))),
         ("iothub-name", .str ((jsSplitChar '.' api.hostname).headD "")),
         ("Authorization", .str s)],
        api.hostname, none, Json.stringify ur⟩ := by
  simp [FileUploadApi.notifyUploadComplete, strFalsy_eq_false hc, authFalsy_sas hs]

/-- The request `notifyUploadComplete` builds for a certificate auth
argument, in closed form. -/
theorem notify_x509_eq (T : Type) (api : FileUploadApi T) (cid : String) (c : X509)
    (ur : BlobUploadResult) (hc : cid ≠ "") :
    api.notifyUploadComplete cid (.x509 c) (some ur) =
      .ok ⟨"POST",
        devicePath api.deviceId ++ "/files/notifications/" ++ encodeURIComponent cid ++ versionQueryString,
        [("Host", .str api.hostname),
         ("User-Agent", .str (packageName ++ "/" ++ packageVersion)),
         ("Content-Type", .str "application/json; charset=utf-8"),
         ("Content-Length", .num (jsLength (Json.stringify ur))),
         ("iothub-name", .str ((jsSplitChar '.' api.hostname).headD ""))],
        api.hostname, some c, Json.stringify ur⟩ := by
  simp [FileUploadApi.notifyUploadComplete, strFalsy_eq_false hc, authFalsy_x509]

/-- A falsy `auth` value of the string variant is the empty string. -/
theorem sas_ne_empty_of_not_falsy {s : String} (h : authFalsy (.sas s) = false) : s ≠ "" := by
  intro he
  subst he
  exact absurd h (by decide)

/-- The empty signature string is falsy as an `auth` argument. -/
theorem authFalsy_sas_empty : authFalsy (.sas "") = true := rfl

/-- Concrete client instance used to instantiate the universally
quantified theorems. -/
def sampleApi : FileUploadApi Nat := ⟨"d0", "myhub.azure-devices.net", .defaultTransport⟩

/-! ## Claim theorems -/

/-- Claim C1: in both operations, a string auth sets the `Authorization`
header to that string and passes `null` certificate options to the
transport, while a certificate auth sets no `Authorization` header and is
passed to the transport as the certificate options. -/
theorem auth_variant_dispatch (T : Type) (api : FileUploadApi T) :
    (∀ blobName s : String, blobName ≠ "" → s ≠ "" →
        ∃ r, api.getBlobSharedAccessSignature blobName (.sas s) = .ok r ∧
          r.headers.lookup "Authorization" = some (.str s) ∧ r.x509Opts = none) ∧
    (∀ (blobName : String) (c : X509), blobName ≠ "" →
        ∃ r, api.getBlobSharedAccessSignature blobName (.x509 c) = .ok r ∧
          r.headers.lookup "Authorization" = none ∧ r.x509Opts = some c) ∧
    (∀ (cid s : String) (ur : BlobUploadResult), cid ≠ "" → s ≠ "" →
        ∃ r, api.notifyUploadComplete cid (.sas s) (some ur) = .ok r ∧
          r.headers.lookup "Authorization" = some (.str s) ∧ r.x509Opts = none) ∧
    (∀ (cid : String) (c : X509) (ur : BlobUploadResult), cid ≠ "" →
        ∃ r, api.notifyUploadComplete cid (.x509 c) (some ur) = .ok r ∧
          r.headers.lookup "Authorization" = none ∧ r.x509Opts = some c) :=
  ⟨fun blobName s hb hs => ⟨_, getBlob_sas_eq T api blobName s hb hs, rfl, rfl⟩,
   fun blobName c hb => ⟨_, getBlob_x509_eq T api blobName c hb, rfl, rfl⟩,
   fun cid s ur hc hs => ⟨_, notify_sas_eq T api cid s ur hc hs, rfl, rfl⟩,
   fun cid c ur hc => ⟨_, notify_x509_eq T api cid c ur hc, rfl, rfl⟩⟩

/-- Witness for C1 at concrete inputs. -/
theorem auth_variant_dispatch_witness :
    (∃ r, sampleApi.getBlobSharedAccessSignature "b" (.sas "sig") = .ok r ∧
      r.headers.lookup "Authorization" = some (.str "sig") ∧ r.x509Opts = none) ∧
    (∃ r, sampleApi.getBlobSharedAccessSignature "b" (.x509 ⟨"cert", "key"⟩) = .ok r ∧
      r.headers.lookup "Authorization" = none ∧ r.x509Opts = some ⟨"cert", "key"⟩) ∧
    (∃ r, sampleApi.notifyUploadComplete "cid" (.sas "sig") (some .null) = .ok r ∧
      r.headers.lookup "Authorization" = some (.str "sig") ∧ r.x509Opts = none) ∧
    (∃ r, sampleApi.notifyUploadComplete "cid" (.x509 ⟨"cert", "key"⟩) (some .null) = .ok r ∧
      r.headers.lookup "Authorization" = none ∧ r.x509Opts = some ⟨"cert", "key"⟩) :=
  ⟨(auth_variant_dispatch Nat sampleApi).1 "b" "sig" (by decide) (by decide),
   (auth_variant_dispatch Nat sampleApi).2.1 "b" ⟨"cert", "key"⟩ (by decide),
   (auth_variant_dispatch Nat sampleApi).2.2.1 "cid" "sig" .null (by decide) (by decide),
   (auth_variant_dispatch Nat sampleApi).2.2.2 "cid" ⟨"cert", "key"⟩ .null (by decide)⟩

/-- Claim C2: for every non-empty blobName and non-falsy auth,
`getBlobSharedAccessSignature` builds a POST to
`/devices/<deviceId>/files?api-version=<api-version>` whose body is the
JSON serialization of an object with the single member blobName, with the
Host, Accept, Content-Type, Content-Length and User-Agent headers. -/
theorem getBlob_request_shape (T : Type) (api : FileUploadApi T) (blobName : String)
    (auth : Auth) (hb : blobName ≠ "") (ha : authFalsy auth = false) :
    ∃ r, api.getBlobSharedAccessSignature blobName auth = .ok r ∧
      r.method = "POST" ∧
      r.path = "/devices/" ++ api.deviceId ++ "/files" ++ "?api-version=" ++ apiVersion ∧
      r.body = Json.stringify (.obj [("blobName", .str blobName)]) ∧
      r.host = api.hostname ∧
      r.headers.lookup "Host" = some (.str api.hostname) ∧
      r.headers.lookup "Accept" = some (.str "application/json") ∧
      r.headers.lookup "Content-Type" = some (.str "application/json") ∧
      r.headers.lookup "Content-Length" = some (.num (jsLength r.body)) ∧
      r.headers.lookup "User-Agent" = some (.str (packageName ++ "/" ++ packageVersion)) := by
  have hpath : devicePath api.deviceId ++ "/files" ++ versionQueryString =
      "/devices/" ++ api.deviceId ++ "/files" ++ "?api-version=" ++ apiVersion := by
    simp only [devicePath, versionQueryString, String.append_assoc]
  cases auth with
  | sas s =>
    exact ⟨_, getBlob_sas_eq T api blobName s hb (sas_ne_empty_of_not_falsy ha),
           rfl, hpath, rfl, rfl, rfl, rfl, rfl, rfl, rfl⟩
  | x509 c =>
    exact ⟨_, getBlob_x509_eq T api blobName c hb,
           rfl, hpath, rfl, rfl, rfl, rfl, rfl, rfl, rfl⟩

/-- Witness for C2 at concrete inputs. -/
theorem getBlob_request_shape_witness :
    ∃ r, sampleApi.getBlobSharedAccessSignature "photo.jpg" (.sas "sig") = .ok r ∧
      r.method = "POST" ∧
      r.path = "/devices/" ++ sampleApi.deviceId ++ "/files" ++ "?api-version=" ++ apiVersion ∧
      r.body = Json.stringify (.obj [("blobName", .str "photo.jpg")]) ∧
      r.host = sampleApi.hostname ∧
      r.headers.lookup "Host" = some (.str sampleApi.hostname) ∧
      r.headers.lookup "Accept" = some (.str "application/json") ∧
      r.headers.lookup "Content-Type" = some (.str "application/json") ∧
      r.headers.lookup "Content-Length" = some (.num (jsLength r.body)) ∧
      r.headers.lookup "User-Agent" = some (.str (packageName ++ "/" ++ packageVersion)) :=
  getBlob_request_shape Nat sampleApi "photo.jpg" (.sas "sig") (by decide) (by decide)

/-- Claim C3: for every non-empty correlationId, non-falsy auth and present
uploadResult, `notifyUploadComplete` builds a POST to
`/devices/<deviceId>/files/notifications/<percent-encoded correlationId>?api-version=<api-version>`
whose body is the JSON serialization of the upload result, with an
`iothub-name` header equal to the first dot-separated label of the
hostname. -/
theorem notify_request_shape (T : Type) (api : FileUploadApi T) (cid : String)
    (auth : Auth) (ur : BlobUploadResult) (hc : cid ≠ "") (ha : authFalsy auth = false) :
    ∃ r, api.notifyUploadComplete cid auth (some ur) = .ok r ∧
      r.method = "POST" ∧
      r.path = "/devices/" ++ api.deviceId ++ "/files/notifications/" ++
        encodeURIComponent cid ++ "?api-version=" ++ apiVersion ∧
      r.body = Json.stringify ur ∧
      r.host = api.hostname ∧
      r.headers.lookup "iothub-name" = some (.str ((jsSplitChar '.' api.hostname).headD "")) := by
  have hpath : devicePath api.deviceId ++ "/files/notifications/" ++
      encodeURIComponent cid ++ versionQueryString =
      "/devices/" ++ api.deviceId ++ "/files/notifications/" ++
        encodeURIComponent cid ++ "?api-version=" ++ apiVersion := by
    simp [devicePath, versionQueryString, String.append_assoc]
  cases auth with
  | sas s =>
    exact ⟨_, notify_sas_eq T api cid s ur hc (sas_ne_empty_of_not_falsy ha),
           rfl, hpath, rfl, rfl, rfl⟩
  | x509 c =>
    exact ⟨_, notify_x509_eq T api cid c ur hc, rfl, hpath, rfl, rfl, rfl⟩

/-- Witness for C3 at a correlation id containing a slash, showing the
percent-encoding in the path. -/
theorem notify_request_shape_witness :
    (∃ r, sampleApi.notifyUploadComplete "abc/def" (.sas "sig")
        (some (.obj [("isSuccess", .bool true), ("statusCode", .num 201)])) = .ok r ∧
      r.method = "POST" ∧
      r.path = "/devices/" ++ sampleApi.deviceId ++ "/files/notifications/" ++
        encodeURIComponent "abc/def" ++ "?api-version=" ++ apiVersion ∧
      r.body = Json.stringify (.obj [("isSuccess", .bool true), ("statusCode", .num 201)]) ∧
      r.host = sampleApi.hostname ∧
      r.headers.lookup "iothub-name" =
        some (.str ((jsSplitChar '.' sampleApi.hostname).headD ""))) ∧
    encodeURIComponent "abc/def" = "abc%2Fdef" ∧
    (jsSplitChar '.' sampleApi.hostname).headD "" = "myhub" :=
  ⟨notify_request_shape Nat sampleApi "abc/def" (.sas "sig")
      (.obj [("isSuccess", .bool true), ("statusCode", .num 201)]) (by decide) (by decide),
   by decide, by decide⟩

/-- Claim C6: each operation rejects a missing (falsy) required argument
with a `ReferenceError` before any transport interaction (the model
returns the error instead of a request for the transport). -/
theorem missing_argument_throws (T : Type) (api : FileUploadApi T) :
    (∀ auth : Auth, ∃ e, api.getBlobSharedAccessSignature "" auth = .error e) ∧
    (∀ blobName : String, ∃ e, api.getBlobSharedAccessSignature blobName (.sas "") = .error e) ∧
    (∀ (auth : Auth) (ur : Option BlobUploadResult),
        ∃ e, api.notifyUploadComplete "" auth ur = .error e) ∧
    (∀ (cid : String) (ur : Option BlobUploadResult),
        ∃ e, api.notifyUploadComplete cid (.sas "") ur = .error e) ∧
    (∀ (cid : String) (auth : Auth), ∃ e, api.notifyUploadComplete cid auth none = .error e) := by
  refine ⟨?_, ?_, ?_, ?_, ?_⟩
  · intro auth
    simp [FileUploadApi.getBlobSharedAccessSignature, strFalsy_empty]
  · intro blobName
    unfold FileUploadApi.getBlobSharedAccessSignature
    by_cases hb : strFalsy blobName = true <;>
      simp [hb, authFalsy_sas_empty]
  · intro auth ur
    simp [FileUploadApi.notifyUploadComplete, strFalsy_empty]
  · intro cid ur
    unfold FileUploadApi.notifyUploadComplete
    by_cases hc : strFalsy cid = true <;>
      simp [hc, authFalsy_sas_empty]
  · intro cid auth
    unfold FileUploadApi.notifyUploadComplete
    by_cases hc : strFalsy cid = true <;> by_cases ha : authFalsy auth = true <;>
      simp [hc, ha]

/-- Claim C7: constructing the client with an empty device id or hostname
fails with a `ReferenceError`; non-empty values are stored unchanged and
the injected transport is used when supplied, the default one otherwise. -/
theorem construct_spec :
    (∀ (T : Type) (hostname : String) (ht : Option T),
        ∃ e, FileUploadApi.construct T "" hostname ht = .error e) ∧
    (∀ (T : Type) (deviceId : String) (ht : Option T),
        ∃ e, FileUploadApi.construct T deviceId "" ht = .error e) ∧
    (∀ (T : Type) (deviceId hostname : String) (t : T), deviceId ≠ "" → hostname ≠ "" →
        FileUploadApi.construct T deviceId hostname (some t) =
          .ok ⟨deviceId, hostname, .injected t⟩) ∧
    (∀ (T : Type) (deviceId hostname : String), deviceId ≠ "" → hostname ≠ "" →
        FileUploadApi.construct T deviceId hostname none =
          .ok ⟨deviceId, hostname, .defaultTransport⟩) := by
  refine ⟨?_, ?_, ?_, ?_⟩
  · intro T hostname ht
    simp [FileUploadApi.construct, strFalsy_empty]
  · intro T deviceId ht
    unfold FileUploadApi.construct
    by_cases hd : strFalsy deviceId = true <;>
      simp [hd, strFalsy_empty]
  · intro T deviceId hostname t hd hh
    simp [FileUploadApi.construct, strFalsy_eq_false hd, strFalsy_eq_false hh]
  · intro T deviceId hostname hd hh
    simp [FileUploadApi.construct, strFalsy_eq_false hd, strFalsy_eq_false hh]

/-- Witness for C7 at concrete inputs. -/
theorem construct_spec_witness :
    FileUploadApi.construct Nat "d0" "h0" (some 7) = .ok ⟨"d0", "h0", .injected 7⟩ ∧
    FileUploadApi.construct Nat "d0" "h0" none = .ok ⟨"d0", "h0", .defaultTransport⟩ :=
  ⟨construct_spec.2.2.1 Nat "d0" "h0" 7 (by decide) (by decide),
   construct_spec.2.2.2 Nat "d0" "h0" (by decide) (by decide)⟩

/-- Witness for C6 at concrete inputs. -/
theorem missing_argument_throws_witness :
    (∃ e, sampleApi.getBlobSharedAccessSignature "" (.sas "sig") = .error e) ∧
    (∃ e, sampleApi.getBlobSharedAccessSignature "b" (.sas "") = .error e) ∧
    (∃ e, sampleApi.notifyUploadComplete "" (.sas "sig") (some .null) = .error e) ∧
    (∃ e, sampleApi.notifyUploadComplete "cid" (.sas "") (some .null) = .error e) ∧
    (∃ e, sampleApi.notifyUploadComplete "cid" (.sas "sig") none = .error e) :=
  ⟨(missing_argument_throws Nat sampleApi).1 (.sas "sig"),
   (missing_argument_throws Nat sampleApi).2.1 "b",
   (missing_argument_throws Nat sampleApi).2.2.1 (.sas "sig") (some .null),
   (missing_argument_throws Nat sampleApi).2.2.2.1 "cid" (some .null),
   (missing_argument_throws Nat sampleApi).2.2.2.2 "cid" (.sas "sig")⟩

/-- Claim C4: on transport failure `getBlobSharedAccessSignature` invokes
its callback with the error enriched with the response body and response
object; on success with a valid JSON body it invokes the callback with no
error and the decoded body. `notifyUploadComplete` forwards a transport
error to its callback and invokes it with no arguments on success. -/
theorem transport_completion_dispatch :
    (∀ (e : TransportError) (body : String) (resp : HttpResponse),
        getBlobOnResponse (some e) body resp = ([.failed ⟨e, body, resp⟩], none)) ∧
    (∀ (body : String) (resp : HttpResponse) (j : Json), jsonParse body = some j →
        getBlobOnResponse none body resp = ([.succeeded j], none)) ∧
    (∀ e : TransportError, notifyOnResponse true (some e) = ([.failed e], none)) ∧
    notifyOnResponse true none = ([.succeeded], none) := by
  refine ⟨fun e body resp => rfl, ?_, fun e => rfl, rfl⟩
  intro body resp j hj
  simp [getBlobOnResponse, hj]

/-- Witness for C4 at concrete completions. -/
theorem transport_completion_dispatch_witness :
    getBlobOnResponse (some ⟨"socket hang up"⟩) "server error page" ⟨500, "ISE"⟩ =
      ([.failed ⟨⟨"socket hang up"⟩, "server error page", ⟨500, "ISE"⟩⟩], none) ∧
    getBlobOnResponse none "\x7b\"correlationId\":\"c1\",\"sasToken\":\"tok\"\x7d" ⟨200, "OK"⟩ =
      ([.succeeded (.obj [("correlationId", .str "c1"), ("sasToken", .str "tok")])], none) ∧
    notifyOnResponse true (some ⟨"socket hang up"⟩) = ([.failed ⟨"socket hang up"⟩], none) ∧
    notifyOnResponse true none = ([.succeeded], none) :=
  ⟨transport_completion_dispatch.1 ⟨"socket hang up"⟩ "server error page" ⟨500, "ISE"⟩,
   transport_completion_dispatch.2.1 _ ⟨200, "OK"⟩
     (.obj [("correlationId", .str "c1"), ("sasToken", .str "tok")]) (by rfl),
   transport_completion_dispatch.2.2.1 ⟨"socket hang up"⟩,
   transport_completion_dispatch.2.2.2⟩

/-- Claim C5: `parse` returns the decomposed mapping when the three
required fields are all present in the semicolon-delimited source, fails
with an `ArgumentError` naming a missing required field otherwise, and on
the sample string returns exactly the three bindings. -/
theorem connection_string_parse_spec :
    ServiceConnectionString.parse "HostName=h;SharedAccessKeyName=n;SharedAccessKey=k" =
      .ok [("HostName", "h"), ("SharedAccessKeyName", "n"), ("SharedAccessKey", "k")] ∧
    (∀ source : String,
        (∀ k ∈ requiredServiceFields, ((createDictionary source ';').lookup k).isSome = true) →
        ServiceConnectionString.parse source = .ok (createDictionary source ';')) ∧
    (∀ source : String,
        (∃ k ∈ requiredServiceFields, (createDictionary source ';').lookup k = none) →
        ∃ missing, missing ∈ requiredServiceFields ∧
          (createDictionary source ';').lookup missing = none ∧
          ServiceConnectionString.parse source =
            .error ⟨"The connection string is missing the property: " ++ missing⟩) := by
  refine ⟨rfl, ?_, ?_⟩
  · intro source h
    unfold ServiceConnectionString.parse ConnectionString.parse
    cases hf : requiredServiceFields.find?
        (fun k => ((createDictionary source ';').lookup k).isNone) with
    | none => rfl
    | some m =>
      have hm := List.mem_of_find?_eq_some hf
      have hp : ((createDictionary source ';').lookup m).isNone = true :=
        List.find?_some (p := fun k => ((createDictionary source ';').lookup k).isNone) hf
      have hs := h m hm
      rw [Option.isNone_iff_eq_none.mp hp] at hs
      simp at hs
  · intro source hex
    obtain ⟨k, hk, hnone⟩ := hex
    unfold ServiceConnectionString.parse ConnectionString.parse
    cases hf : requiredServiceFields.find?
        (fun k => ((createDictionary source ';').lookup k).isNone) with
    | none =>
      rw [List.find?_eq_none] at hf
      have := hf k hk
      simp [hnone] at this
    | some m =>
      have hp : ((createDictionary source ';').lookup m).isNone = true :=
        List.find?_some (p := fun k => ((createDictionary source ';').lookup k).isNone) hf
      exact ⟨m, List.mem_of_find?_eq_some hf, Option.isNone_iff_eq_none.mp hp, rfl⟩

/-- Witness for C5: a complete source succeeds with its dictionary, and a
source missing the key-name field fails naming it. -/
theorem connection_string_parse_spec_witness :
    ServiceConnectionString.parse "HostName=h;SharedAccessKeyName=n;SharedAccessKey=k" =
      .ok (createDictionary "HostName=h;SharedAccessKeyName=n;SharedAccessKey=k" ';') ∧
    (∃ missing, missing ∈ requiredServiceFields ∧
      (createDictionary "HostName=h" ';').lookup missing = none ∧
      ServiceConnectionString.parse "HostName=h" =
        .error ⟨"The connection string is missing the property: " ++ missing⟩) :=
  ⟨connection_string_parse_spec.2.1 "HostName=h;SharedAccessKeyName=n;SharedAccessKey=k"
      (by decide),
   connection_string_parse_spec.2.2 "HostName=h" ⟨"SharedAccessKeyName", by decide, by decide⟩⟩

/-- Claim C8: there is a successful transport completion whose body is not
valid JSON for which the completion handler of
`getBlobSharedAccessSignature` throws (the `JSON.parse` failure propagates)
and the callback is not invoked with an error, nor at all. -/
theorem malformed_json_response_throws :
    getBlobOnResponse none "not json" ⟨200, "OK"⟩ = ([], some (.parseFailure "not json")) :=
  rfl

/-- Claim C9 counterexample: at a successful transport completion whose
body is not valid JSON, the callback of `getBlobSharedAccessSignature` is
invoked zero times, not exactly once. -/
theorem callback_once_counterexample :
    ¬(getBlobOnResponse none "oops" ⟨200, "OK"⟩).1.length = 1 := by decide

/-- Claim C9 as amended: per transport completion the callback is never
invoked more than once, and it is invoked exactly once provided that, for
`getBlobSharedAccessSignature`, the transport reported an error or the
successful body is valid JSON, and that, for `notifyUploadComplete`, the
optional callback was supplied. -/
theorem callback_exactly_once_amended :
    (∀ (err : Option TransportError) (body : String) (resp : HttpResponse),
        (err.isSome = true ∨ (jsonParse body).isSome = true) →
        (getBlobOnResponse err body resp).1.length = 1) ∧
    (∀ (err : Option TransportError) (body : String) (resp : HttpResponse),
        (getBlobOnResponse err body resp).1.length ≤ 1) ∧
    (∀ err : Option TransportError, (notifyOnResponse true err).1.length = 1) ∧
    (∀ (d : Bool) (err : Option TransportError), (notifyOnResponse d err).1.length ≤ 1) := by
  refine ⟨?_, ?_, ?_, ?_⟩
  · intro err body resp h
    cases err with
    | some e => rfl
    | none =>
      obtain ⟨j, hj⟩ : ∃ j, jsonParse body = some j := by
        cases h with
        | inl h => simp at h
        | inr h => exact Option.isSome_iff_exists.mp h
      simp [getBlobOnResponse, hj]
  · intro err body resp
    cases err with
    | some e => exact Nat.le_refl 1
    | none =>
      cases hj : jsonParse body <;> simp [getBlobOnResponse, hj]
  · intro err
    cases err <;> rfl
  · intro d err
    cases d <;> cases err <;> simp [notifyOnResponse]

/-- Witness for the amended C9 at concrete completions. -/
theorem callback_exactly_once_amended_witness :
    (getBlobOnResponse (some ⟨"boom"⟩) "x" ⟨500, "ISE"⟩).1.length = 1 ∧
    (getBlobOnResponse none "\x7b\x7d" ⟨200, "OK"⟩).1.length = 1 ∧
    (notifyOnResponse true none).1.length = 1 :=
  ⟨callback_exactly_once_amended.1 (some ⟨"boom"⟩) "x" ⟨500, "ISE"⟩ (Or.inl rfl),
   callback_exactly_once_amended.1 none "\x7b\x7d" ⟨200, "OK"⟩ (Or.inr (by rfl)),
   callback_exactly_once_amended.2.2.1 none⟩

/-- Claim C10: when `notifyUploadComplete` is called without its optional
callback, every transport completion throws from invoking the undefined
callback and no callback invocation happens. -/
theorem omitted_callback_throws :
    ∀ err : Option TransportError,
      (notifyOnResponse false err).1 = [] ∧
      (notifyOnResponse false err).2 = some (.calledUndefined "done") :=
  fun _ => ⟨rfl, rfl⟩

/-- Witness for C10 at a concrete completion. -/
theorem omitted_callback_throws_witness :
    (notifyOnResponse false (some ⟨"boom"⟩)).1 = [] ∧
    (notifyOnResponse false (some ⟨"boom"⟩)).2 = some (.calledUndefined "done") :=
  omitted_callback_throws (some ⟨"boom"⟩)

end AzureIot
